import Mathlib

/-!
Verification development for the gpu-kernel-runner repository.

The repository under study is a harness that dynamically compiles and runs a single GPU
compute kernel against one of two backends (CUDA, OpenCL). The definitions below are a
shallow embedding of the relevant parts of src/kernel-runner.cpp and
src/kernel_adapter.hpp: machine integers become Nat or Int, fatal exits (die / exit /
throw) become Except.error, map lookups that may throw become Option, and the sequential
orchestration of main becomes explicit state passing plus an event trace. Definitions
whose source lives in headers that are not part of the provided sources are modelled
from the specification and marked as such in their doc comments.
-/

/-- Mirrors execution_ecosystem_t: the two selectable GPU backends. -/
inductive execution_ecosystem_t
  | cuda
  | opencl
deriving DecidableEq

/-- Mirrors parameter_direction_t (common_types); the source also uses the
aliases in / out for input / output. -/
inductive parameter_direction_t
  | input
  | output
  | inout
deriving DecidableEq

/-- Mirrors kernel_parameters::kind_t. -/
inductive kind_t
  | buffer
  | scalar
deriving DecidableEq

/-- Backend selection from parse_command_line_initially (kernel-runner.cpp lines
436-445). Each flag is modelled as an optional Bool: none when the flag was not given
on the command line, some v when it was given and parsed to v. -/
def select_backend (specified_cuda specified_opencl : Option Bool) :
    Except String execution_ecosystem_t :=
  let use_opencl := specified_opencl.getD false
  let use_cuda := specified_cuda.getD true
  if ¬ use_cuda ∧ ¬ use_opencl then
    Except.error "Please specify either CUDA or OpenCL to be used."
  else if use_cuda ∧ use_opencl then
    if specified_cuda.isSome ∧ specified_opencl.isSome then
      Except.error "Please specify either CUDA or OpenCL, not both."
    else
      Except.ok execution_ecosystem_t.opencl
  else if use_cuda then
    Except.ok execution_ecosystem_t.cuda
  else
    Except.ok execution_ecosystem_t.opencl

/-- A 3-dimensional launch geometry component (cuda dim3 / the array of three unsigned
values built by the dimension-parsing loops). -/
structure dim3 where
  x : Nat
  y : Nat
  z : Nat
deriving DecidableEq

/-- Mirrors optional_launch_config_components as used by kernel-runner.cpp: three
optional dimension triples plus an optional dynamic shared memory size. -/
structure optional_launch_config_components where
  block_dimensions : Option dim3
  grid_dimensions : Option dim3
  overall_grid_dimensions : Option dim3
  dynamic_shared_memory_size : Option Nat
deriving DecidableEq

/-- The padding loop of parse_command_line_initially (while size < 3 push 1), followed
by reading entries 0, 1, 2. Callers reject the empty list and lists longer than 3
before invoking this. -/
def pad_to_three (dims : List Nat) : dim3 :=
  match dims with
  | [] => ⟨1, 1, 1⟩
  | [a] => ⟨a, 1, 1⟩
  | [a, b] => ⟨a, b, 1⟩
  | a :: b :: c :: _ => ⟨a, b, c⟩

/-- The forced-launch-configuration portion of parse_command_line_initially
(kernel-runner.cpp lines 603-637): block dimensions are validated and padded first;
then supplying both grid dimensions and overall grid dimensions is fatal (lines
612-614); then grid and overall dimensions are each validated and padded. Each
argument is none when the option was absent, some dims when present with the given
comma-separated values. -/
def parse_forced_launch_config (block grid overall : Option (List Nat))
    (shared_mem : Option Nat) : Except String optional_launch_config_components := do
  let bd ← match block with
    | none => Except.ok none
    | some dims =>
      if dims.isEmpty ∨ dims.length > 3 then
        Except.error "Invalid forced block dimensions: Found 0 dimensions"
      else Except.ok (some (pad_to_three dims))
  if grid.isSome ∧ overall.isSome then
    Except.error "You can specify the grid dimensions either in blocks or in overall threads, but not both"
  else do
    let gd ← match grid with
      | none => Except.ok none
      | some dims =>
        if dims.isEmpty ∨ dims.length > 3 then
          Except.error "Invalid forced grid dimensions in blocks"
        else Except.ok (some (pad_to_three dims))
    let od ← match overall with
      | none => Except.ok none
      | some dims =>
        if dims.isEmpty ∨ dims.length > 3 then
          Except.error "Invalid forced overall grid dimensions"
        else Except.ok (some (pad_to_three dims))
    Except.ok ⟨bd, gd, od, shared_mem⟩

/-- Componentwise product of two dimension triples, as in overall = grid * block. -/
def dim3_prod (g b : dim3) : dim3 :=
  ⟨g.x * b.x, g.y * b.y, g.z * b.z⟩

/-- Ceiling division on Nat, as used to derive grid dimensions from overall
dimensions and block dimensions. -/
def div_rounding_up (n d : Nat) : Nat :=
  (n + d - 1) / d

/-- Componentwise ceiling division: grid dimensions from overall and block. -/
def grid_dims_by_overall (o b : dim3) : dim3 :=
  ⟨div_rounding_up o.x b.x, div_rounding_up o.y b.y, div_rounding_up o.z b.z⟩

/-- A fully resolved launch geometry: the 6-value geometry (three triples collapse to
block, grid, overall) plus the dynamic shared memory size. -/
structure realized_launch_config where
  block_dimensions : dim3
  grid_dimensions : dim3
  overall_grid_dimensions : dim3
  dynamic_shared_memory_size : Nat
deriving DecidableEq

/-- Modelled from the spec: the full_blocks flag of the launch-config resolver, true
iff grid times block equals overall on every axis; the source member function
optional_launch_config_components::full_blocks lives in a header not under src/. -/
def full_blocks (c : realized_launch_config) : Bool :=
  dim3_prod c.grid_dimensions c.block_dimensions == c.overall_grid_dimensions

/-- Modelled from the spec: the resolution algorithm of the LaunchConfigResolver. The
source functions optional_launch_config_components::deduce_missing and
realize_launch_config, invoked by configure_launch (kernel-runner.cpp lines
1169-1188), live in a header that is not part of src/. Rules, in order: both grid and
overall set is fatal; block and grid set derives overall as their product; block and
overall set derives grid by ceiling division; any remaining incompleteness delegates
to the descriptor, whose base behaviour (kernel_adapter.hpp lines 242-255) is fatal;
the dynamic shared memory size defaults to 0. -/
def deduce_missing (c : optional_launch_config_components) :
    Except String realized_launch_config :=
  if c.grid_dimensions.isSome ∧ c.overall_grid_dimensions.isSome then
    Except.error "ambiguous over-specification of the launch configuration"
  else
    match c.block_dimensions, c.grid_dimensions, c.overall_grid_dimensions with
    | some b, some g, none =>
      Except.ok ⟨b, g, dim3_prod g b, c.dynamic_shared_memory_size.getD 0⟩
    | some b, none, some o =>
      Except.ok ⟨b, grid_dims_by_overall o b, o, c.dynamic_shared_memory_size.getD 0⟩
    | _, _, _ =>
      Except.error "Unable to deduce launch configuration - please specify all launch configuration components explicitly using the command-line"

/-- All three components of a dimension triple are positive, as the data model
requires of launch-configuration components. -/
def dim3.positive (d : dim3) : Prop :=
  0 < d.x ∧ 0 < d.y ∧ 0 < d.z

/-- Modelled from the spec: get_defined_terms (called by
ensure_necessary_terms_were_defined, kernel-runner.cpp line 117) extracts the defined
term of each generic -D preprocessor definition string, i.e. the part before the first
equals sign of a NAME or NAME=VALUE string; its source lives outside src/. The split
mirrors finalize_preprocessor_definitions (kernel-runner.cpp lines 187-215). -/
def term_of_definition (s : String) : String :=
  match s.splitOn "=" with
  | t :: _ => t
  | [] => s

/-- Modelled from the spec: the set of terms defined by the generic define options. -/
def get_defined_terms (preprocessor_definitions : List String) : Finset String :=
  (preprocessor_definitions.map term_of_definition).toFinset

/-- Mirrors ensure_necessary_terms_were_defined (kernel-runner.cpp lines 110-130):
take the union of the terms defined through generic -D options and the keys of the
value definitions collected through dedicated named options, subtract it from the
terms the kernel adapter requires, and exit fatally when anything remains. -/
def ensure_necessary_terms_were_defined (preprocessor_definitions : List String)
    (preprocessor_value_definitions : List (String × String))
    (required_terms : Finset String) : Except String Unit :=
  let terms_defined_by_define_options := get_defined_terms preprocessor_definitions
  let terms_defined_by_specific_options :=
    (preprocessor_value_definitions.map Prod.fst).toFinset
  let all_defined_terms :=
    terms_defined_by_define_options ∪ terms_defined_by_specific_options
  let required_but_undefined := required_terms \ all_defined_terms
  if required_but_undefined.Nonempty then
    Except.error "The following preprocessor definitions must be specified, but have not been"
  else
    Except.ok ()

/-- Mirrors single_parameter_details (kernel_adapter.hpp lines 92-100), restricted to
the fields the marshaling protocol inspects. -/
structure single_parameter_details where
  name : String
  kind : kind_t
  direction : parameter_direction_t
deriving DecidableEq

/-- Mirrors marshalled_arguments_type: the ordered argument-pointer list (none models
the null sentinel entry) and the parallel byte-size list used by OpenCL. Either list
grows only at its back, as in the source. A pointer is modelled as the Nat address of
the pointed-to device buffer handle or typed scalar. -/
structure marshalled_arguments_type where
  pointers : List (Option Nat)
  sizes : List Nat
deriving DecidableEq

/-- The slice of execution_context_t that argument marshaling reads: the active
ecosystem, the device-side buffer collections (logical name to the address of the
device buffer handle), and the typed scalar arguments (logical name to the address of
the stored value and the byte size of its type). -/
structure marshal_context where
  ecosystem : execution_ecosystem_t
  dev_inputs : String → Option Nat
  dev_outputs : String → Option Nat
  scalars : String → Option (Nat × Nat)

/-- The byte size of a cl::Buffer handle, pushed for every buffer argument under
OpenCL (kernel_adapter.hpp line 296); its exact value is irrelevant to the claims. -/
def sizeof_cl_buffer : Nat := 8

/-- Mirrors kernel_adapters::push_back_buffer (kernel_adapter.hpp lines 281-298): the
device buffer is looked up in the inputs collection when the direction is in, and in
the outputs collection otherwise (outputs serve inout buffers as well); the map
lookup with at throws when the name is absent, modelled as Except.error. Under OpenCL
a byte size is pushed alongside the pointer. -/
def push_back_buffer (argument_ptrs : marshalled_arguments_type)
    (context : marshal_context) (dir : parameter_direction_t)
    (buffer_parameter_name : String) : Except String marshalled_arguments_type :=
  match (if dir = parameter_direction_t.input then
      context.dev_inputs
    else
      context.dev_outputs) buffer_parameter_name with
  | none => Except.error "map::at"
  | some addr =>
    if context.ecosystem = execution_ecosystem_t.cuda then
      Except.ok ⟨argument_ptrs.pointers ++ [some addr], argument_ptrs.sizes⟩
    else
      Except.ok ⟨argument_ptrs.pointers ++ [some addr],
        argument_ptrs.sizes ++ [sizeof_cl_buffer]⟩

/-- Mirrors kernel_adapters::push_back_scalar (kernel_adapter.hpp lines 300-310): the
typed value is looked up by name; its address is pushed, and under OpenCL the byte
size of the scalar type is pushed as well. -/
def push_back_scalar (argument_ptrs : marshalled_arguments_type)
    (context : marshal_context)
    (scalar_parameter_name : String) : Except String marshalled_arguments_type :=
  match context.scalars scalar_parameter_name with
  | none => Except.error "map::at"
  | some (addr, byte_size) =>
    if context.ecosystem = execution_ecosystem_t.opencl then
      Except.ok ⟨argument_ptrs.pointers ++ [some addr],
        argument_ptrs.sizes ++ [byte_size]⟩
    else
      Except.ok ⟨argument_ptrs.pointers ++ [some addr], argument_ptrs.sizes⟩

/-- The traversal performed by each concrete implementation of
marshal_kernel_arguments_inner: the declared parameters are visited exactly once in
declaration order, buffers through push_back_buffer and scalars through
push_back_scalar (spec section 4.6). -/
def marshal_kernel_arguments_inner (params : List single_parameter_details)
    (context : marshal_context) (argument_ptrs : marshalled_arguments_type) :
    Except String marshalled_arguments_type :=
  params.foldlM
    (fun acc p =>
      match p.kind with
      | kind_t.buffer => push_back_buffer acc context p.direction p.name
      | kind_t.scalar => push_back_scalar acc context p.name)
    argument_ptrs

/-- Mirrors kernel_adapter::marshal_kernel_arguments (kernel_adapter.hpp lines
230-240): run the inner traversal on an empty argument list, then append a
terminating null entry exactly when the ecosystem is CUDA. -/
def marshal_kernel_arguments (params : List single_parameter_details)
    (context : marshal_context) : Except String marshalled_arguments_type :=
  match marshal_kernel_arguments_inner params context ⟨[], []⟩ with
  | Except.error e => Except.error e
  | Except.ok a =>
    if context.ecosystem = execution_ecosystem_t.cuda then
      Except.ok ⟨a.pointers ++ [none], a.sizes⟩
    else
      Except.ok a

/-- Host-observable operations issued by the orchestration flow of main, in program
order. The trace abstracts the side effects the claims reason about. -/
inductive Event
  | device_init
  | compile_kernel
  | write_ir
  | buffer_read (name : String)
  | host_buffer_alloc (name : String)
  | device_buffer_alloc (name : String)
  | copy_to_device (name : String)
  | marshal_arguments
  | configure_launch_step
  | zero_fill (name : String)
  | copy_d2d (name : String)
  | device_sync
  | kernel_launch (run_index : Nat)
  | copy_from_device (name : String)
  | write_file (name : String)
deriving DecidableEq

/-- The device-side buffer collections of execution_context_t: the inputs collection
(holding the pristine copies of inout buffers) and the outputs collection (holding
their working copies), each mapping a logical name to the byte content of the
allocated device buffer, or none where no buffer was allocated under that name. -/
structure device_buffers where
  inputs : String → Option (List Nat)
  outputs : String → Option (List Nat)

/-- One iteration of the zeroing loop of zero_output_buffers (kernel-runner.cpp lines
944-947): look up the device buffer of an output-only name in the outputs collection
(at throws on absence, modelled as none) and overwrite its content with zeros. -/
def zero_one_output_buffer (bufs : device_buffers) (name : String) :
    Option device_buffers :=
  match bufs.outputs name with
  | none => none
  | some content =>
    some { bufs with
      outputs := fun n =>
        if n = name then some (List.replicate content.length 0) else bufs.outputs n }

/-- Mirrors zero_output_buffers (kernel-runner.cpp lines 935-949): return immediately
when there are no output-only buffers, otherwise zero-fill each of them on the
device, emitting one zero-fill operation per buffer. -/
def zero_output_buffers (output_only_names : List String) (bufs : device_buffers) :
    Option (device_buffers × List Event) :=
  if output_only_names.isEmpty then
    some (bufs, [])
  else
    match output_only_names.foldlM zero_one_output_buffer bufs with
    | none => none
    | some bufs2 => some (bufs2, output_only_names.map Event.zero_fill)

/-- One iteration of the reset loop of reset_working_copy_of_inout_buffers
(kernel-runner.cpp lines 1133-1141): look up the pristine copy in the inputs
collection and the working copy in the outputs collection (either at throws on
absence), then copy the pristine content device-to-device over the working copy. -/
def reset_one_inout_buffer (bufs : device_buffers) (name : String) :
    Option device_buffers :=
  match bufs.inputs name, bufs.outputs name with
  | some pristine, some _ =>
    some { bufs with
      outputs := fun n => if n = name then some pristine else bufs.outputs n }
  | _, _ => none

/-- Mirrors reset_working_copy_of_inout_buffers (kernel-runner.cpp lines 1125-1143):
return immediately when the descriptor declares no inout buffers; otherwise copy each
pristine device copy over the corresponding working device copy and synchronize the
device afterwards, emitting one device-to-device copy per buffer followed by the
synchronization. -/
def reset_working_copy_of_inout_buffers (inout_names : List String)
    (bufs : device_buffers) : Option (device_buffers × List Event) :=
  if inout_names.isEmpty then
    some (bufs, [])
  else
    match inout_names.foldlM reset_one_inout_buffer bufs with
    | none => none
    | some bufs2 =>
      some (bufs2, inout_names.map Event.copy_d2d ++ [Event.device_sync])

/-- A kernel launch mutates device memory through the marshaled argument pointers:
out and inout parameters are marshaled from the outputs collection
(kernel_adapter.hpp lines 281-298), so one run is modelled as an arbitrary
run-index-dependent update of the outputs collection, leaving the pristine inputs
collection unchanged. -/
def launch_kernel
    (mutate : Nat → (String → Option (List Nat)) → String → Option (List Nat))
    (run_index : Nat) (bufs : device_buffers) : device_buffers :=
  ⟨bufs.inputs, mutate run_index bufs.outputs⟩

/-- The per-run options that perform_single_run reads from the execution context:
the zero-output-buffers flag, the output-only and inout buffer name lists of the
descriptor, and the configured number of runs. -/
structure run_options where
  zero_output_buffers : Bool
  output_only_names : List String
  inout_names : List String
  num_runs : Nat

/-- The preparation phase of perform_single_run (kernel-runner.cpp lines 1148-1151):
optionally zero the output-only buffers, then reset the working copies of the inout
buffers, in that order. -/
def prepare_single_run (opts : run_options) (bufs : device_buffers) :
    Option (device_buffers × List Event) :=
  match (if opts.zero_output_buffers then
          zero_output_buffers opts.output_only_names bufs
        else some (bufs, [])) with
  | none => none
  | some (bufs1, evs1) =>
    match reset_working_copy_of_inout_buffers opts.inout_names bufs1 with
    | none => none
    | some (bufs2, evs2) => some (bufs2, evs1 ++ evs2)

/-- Mirrors perform_single_run (kernel-runner.cpp lines 1145-1161): prepare the
buffers, then launch the kernel for the given run index. -/
def perform_single_run (opts : run_options)
    (mutate : Nat → (String → Option (List Nat)) → String → Option (List Nat))
    (run_index : Nat) (bufs : device_buffers) :
    Option (device_buffers × List Event) :=
  match prepare_single_run opts bufs with
  | none => none
  | some (bufs1, evs) =>
    some (launch_kernel mutate run_index bufs1, evs ++ [Event.kernel_launch run_index])

/-- The device-buffer state after the first k complete runs of the run loop of main
(kernel-runner.cpp lines 1233-1235), starting from the state bufs0 established when
the execution context was populated. -/
def state_after_runs (opts : run_options)
    (mutate : Nat → (String → Option (List Nat)) → String → Option (List Nat))
    (bufs0 : device_buffers) : Nat → Option device_buffers
  | 0 => some bufs0
  | k + 1 =>
    match state_after_runs opts mutate bufs0 k with
    | none => none
    | some b =>
      match perform_single_run opts mutate k b with
      | none => none
      | some (b2, _) => some b2

/-- The device-buffer state immediately before the kernel launch of run k: the state
after the first k runs, with run k preparation (zeroing and inout reset) applied. -/
def state_before_launch (opts : run_options)
    (mutate : Nat → (String → Option (List Nat)) → String → Option (List Nat))
    (bufs0 : device_buffers) (k : Nat) : Option device_buffers :=
  match state_after_runs opts mutate bufs0 k with
  | none => none
  | some b =>
    match prepare_single_run opts b with
    | none => none
    | some (b2, _) => some b2

/-- The event trace emitted by run k. -/
def events_of_run (opts : run_options)
    (mutate : Nat → (String → Option (List Nat)) → String → Option (List Nat))
    (bufs0 : device_buffers) (k : Nat) : Option (List Event) :=
  match state_after_runs opts mutate bufs0 k with
  | none => none
  | some b =>
    match perform_single_run opts mutate k b with
    | none => none
    | some (_, evs) => some evs

/-- The buffers a run touches are allocated: every inout name has a device buffer in
both the inputs and the outputs collection, and every output-only name has one in the
outputs collection. -/
def has_buffers (opts : run_options) (bufs : device_buffers) : Prop :=
  (∀ n ∈ opts.inout_names,
    (bufs.inputs n).isSome = true ∧ (bufs.outputs n).isSome = true) ∧
  (∀ n ∈ opts.output_only_names, (bufs.outputs n).isSome = true)

/-- The device landscape ensure_gpu_device_validity queries: the CUDA device count,
the per-platform OpenCL device counts, and whether each OpenCL platform generates PTX
during builds. -/
structure device_environment where
  cuda_device_count : Nat
  opencl_platform_device_counts : List Nat
  platform_uses_ptx : Nat → Bool

/-- Mirrors ensure_gpu_device_validity (kernel-runner.cpp lines 318-361). The OpenCL
branch checks the platform list, the platform index, the PTX capability and the
per-platform device count, and stores that device count; the CUDA branch stores the
CUDA device count after checking it is nonzero. The final range check of the source
(line 359) compares the device index against the CUDA device count in both branches,
leaving the stored per-backend count unread; the model reproduces that comparison
exactly. -/
def ensure_gpu_device_validity (env : device_environment)
    (ecosystem : execution_ecosystem_t) (platform_id : Option Nat)
    (device_id : Int) (need_ptx : Bool) : Except String Unit :=
  let backend_checks : Except String Nat :=
    match ecosystem with
    | execution_ecosystem_t.opencl =>
      let actual_platform_id := platform_id.getD 0
      if env.opencl_platform_device_counts.isEmpty then
        Except.error "No OpenCL platforms found."
      else if env.opencl_platform_device_counts.length ≤ actual_platform_id then
        Except.error "No OpenCL platform exists with the specified ID"
      else if need_ptx ∧ ¬ env.platform_uses_ptx actual_platform_id then
        Except.error "PTX file requested, but the chosen OpenCL platform does not generate PTX files during build"
      else
        let devices_on_platform :=
          (env.opencl_platform_device_counts.get? actual_platform_id).getD 0
        if devices_on_platform = 0 then
          Except.error "No OpenCL devices found on the platform"
        else Except.ok devices_on_platform
    | execution_ecosystem_t.cuda =>
      if env.cuda_device_count = 0 then
        Except.error "No CUDA devices detected on this system"
      else Except.ok env.cuda_device_count
  match backend_checks with
  | Except.error e => Except.error e
  | Except.ok _device_count =>
    if device_id < 0 ∨ (env.cuda_device_count : Int) ≤ device_id then
      Except.error "Please specify a valid device index"
    else Except.ok ()

/-- The configuration main runs under, with the stages owned by external
collaborators (flag parsing outcomes, compilation outcome, descriptor validation)
abstracted to their success or failure. The buffer name lists come from the kernel
adapter: input_buffer_names covers the in and inout directions, output_buffer_names
covers the out and inout directions. -/
structure main_config where
  initial_parse_ok : Bool
  registered_keys : List String
  kernel_key : String
  device_valid : Bool
  kernel_parse_ok : Bool
  compile_succeeds : Bool
  write_ptx : Bool
  compile_only : Bool
  inputs_valid : Bool
  launch_config_ok : Bool
  write_output : Bool
  zero_output_buffers : Bool
  num_runs : Nat
  input_buffer_names : List String
  output_buffer_names : List String
  output_only_buffer_names : List String
  inout_buffer_names : List String

/-- The events of one iteration of the run loop, as emitted by perform_single_run:
optional zero-fills of the output-only buffers, then, when inout buffers exist, one
device-to-device copy per inout buffer followed by a device synchronization, then the
kernel launch. -/
def run_loop_events (cfg : main_config) (run_index : Nat) : List Event :=
  (if cfg.zero_output_buffers then
    cfg.output_only_buffer_names.map Event.zero_fill
  else []) ++
  (if cfg.inout_buffer_names.isEmpty then []
   else cfg.inout_buffer_names.map Event.copy_d2d ++ [Event.device_sync]) ++
  [Event.kernel_launch run_index]

/-- Mirrors main (kernel-runner.cpp lines 1205-1244) as an exit code plus the trace
of host-observable operations, in program order: the initial command-line parse
(whose final step rejects an unregistered kernel key, lines 666-668, before any
context work), device validation followed by context creation, the kernel-specific
parse, kernel compilation, optional intermediate-representation output, the
compile-only early return (line 1218), buffer reading, input verification, host and
device buffer allocation, input copies, argument marshaling, launch configuration,
the run loop, and output write-back. Exit code 0 models EXIT_SUCCESS, 1 models
EXIT_FAILURE. -/
def main_model (cfg : main_config) : Nat × List Event :=
  if cfg.initial_parse_ok = false then (1, [])
  else if cfg.kernel_key ∈ cfg.registered_keys then
    if cfg.device_valid = false then (1, [])
    else
      let t1 := [Event.device_init]
      if cfg.kernel_parse_ok = false then (1, t1)
      else
        let t2 := t1 ++ [Event.compile_kernel]
        if cfg.compile_succeeds = false then (1, t2)
        else
          let t3 := t2 ++ if cfg.write_ptx then [Event.write_ir] else []
          if cfg.compile_only then (0, t3)
          else
            let t4 := t3 ++ cfg.input_buffer_names.map Event.buffer_read
            if cfg.inputs_valid = false then (1, t4)
            else
              let t5 := t4 ++ cfg.output_buffer_names.map Event.host_buffer_alloc
                ++ (cfg.input_buffer_names ++ cfg.output_buffer_names).map
                    Event.device_buffer_alloc
                ++ (cfg.input_buffer_names ++ cfg.inout_buffer_names).map
                    Event.copy_to_device
                ++ [Event.marshal_arguments]
              if cfg.launch_config_ok = false then (1, t5)
              else
                let t6 := t5 ++ [Event.configure_launch_step]
                  ++ ((List.range cfg.num_runs).map (run_loop_events cfg)).flatten
                let t7 := t6 ++ if cfg.write_output then
                    cfg.output_buffer_names.map Event.copy_from_device
                    ++ [Event.device_sync]
                    ++ cfg.output_buffer_names.map Event.write_file
                  else []
                (0, t7)
  else (1, [])

/-- Invariant of the argument lists while the inner marshaling traversal runs: no
null entry has been pushed, under OpenCL the size list stays parallel to the pointer
list, and under CUDA the size list stays empty. -/
def args_wf (eco : execution_ecosystem_t) (a : marshalled_arguments_type) : Prop :=
  (none : Option Nat) ∉ a.pointers ∧
  (eco = execution_ecosystem_t.opencl → a.sizes.length = a.pointers.length) ∧
  (eco = execution_ecosystem_t.cuda → a.sizes = [])

theorem le_div_rounding_up_mul (o b : Nat) (hb : 0 < b) :
    o ≤ div_rounding_up o b * b := by
  unfold div_rounding_up
  rcases Nat.eq_zero_or_pos o with ho | ho
  · subst ho; exact Nat.zero_le _
  · have h1 : (o + b - 1) / b < (o + b - 1) / b + 1 := Nat.lt_succ_self _
    have h2 : o + b - 1 < ((o + b - 1) / b + 1) * b := (Nat.div_lt_iff_lt_mul hb).mp h1
    set q := (o + b - 1) / b with hq
    rw [Nat.succ_mul] at h2
    have h3 : o - 1 + b = o + b - 1 := by omega
    rw [← h3] at h2
    have h4 : o - 1 < q * b := Nat.lt_of_add_lt_add_right h2
    exact Nat.le_of_pred_lt h4

/-- C7: backend selection: when neither the CUDA-forcing flag nor the OpenCL-forcing
flag is given, the primary (CUDA) backend is selected; when both are forced, the run
terminates fatally. -/
theorem C7_backend_default_and_conflict :
    select_backend none none = Except.ok execution_ecosystem_t.cuda ∧
    select_backend (some true) (some true) =
      Except.error "Please specify either CUDA or OpenCL, not both." := by
  constructor <;> rfl

/-- C3: whenever both grid dimensions (in blocks) and overall grid dimensions (in
threads) are supplied, the initial command-line parse terminates fatally, regardless
of the supplied values (and of the block dimensions and shared memory size). -/
theorem C3_grid_and_overall_both_forced_fatal (block : Option (List Nat))
    (shared_mem : Option Nat) (g o : List Nat)
    (cfg : optional_launch_config_components) :
    parse_forced_launch_config block (some g) (some o) shared_mem ≠ Except.ok cfg := by
  intro h
  cases block with
  | none =>
    simp [parse_forced_launch_config, Bind.bind, Except.bind] at h
  | some dims =>
    simp [parse_forced_launch_config, Bind.bind, Except.bind] at h
    split at h <;> exact Except.noConfusion h

/-- C2 (counterexample): with block dimensions (256,1,1) and overall grid dimensions
(1000,1,1) forced, resolution succeeds with grid (4,1,1) while overall stays at
(1000,1,1); since 4 * 256 = 1024, the resolved geometry violates
overall = grid * block on the x axis, refuting the claim at this input. -/
theorem C2_overall_eq_grid_times_block_counterexample :
    deduce_missing ⟨some ⟨256, 1, 1⟩, none, some ⟨1000, 1, 1⟩, none⟩ =
      Except.ok ⟨⟨256, 1, 1⟩, ⟨4, 1, 1⟩, ⟨1000, 1, 1⟩, 0⟩ ∧
    dim3_prod (⟨4, 1, 1⟩ : dim3) ⟨256, 1, 1⟩ ≠ (⟨1000, 1, 1⟩ : dim3) := by
  constructor
  · rfl
  · decide

/-- C2 (amended): for all valid partial launch-configuration inputs (any supplied
block dimensions positive, per the data model), the fully resolved launch geometry
satisfies overall at most grid times block on every axis, with equality on every axis
holding exactly when the full_blocks flag is true. -/
theorem C2_overall_le_grid_times_block (c : optional_launch_config_components)
    (r : realized_launch_config)
    (hpos : ∀ d, c.block_dimensions = some d → dim3.positive d)
    (h : deduce_missing c = Except.ok r) :
    (r.overall_grid_dimensions.x ≤ r.grid_dimensions.x * r.block_dimensions.x ∧
     r.overall_grid_dimensions.y ≤ r.grid_dimensions.y * r.block_dimensions.y ∧
     r.overall_grid_dimensions.z ≤ r.grid_dimensions.z * r.block_dimensions.z) ∧
    (full_blocks r = true ↔
      dim3_prod r.grid_dimensions r.block_dimensions = r.overall_grid_dimensions) := by
  have hfb : full_blocks r = true ↔
      dim3_prod r.grid_dimensions r.block_dimensions = r.overall_grid_dimensions := by
    simp [full_blocks]
  refine ⟨?_, hfb⟩
  obtain ⟨bd, gd, od, dsm⟩ := c
  rcases bd with _ | b <;> rcases gd with _ | g <;> rcases od with _ | o <;>
    simp [deduce_missing] at h
  · have hb : dim3.positive b := hpos b rfl
    subst h
    simp [grid_dims_by_overall, dim3_prod]
    exact ⟨le_div_rounding_up_mul o.x b.x hb.1,
           le_div_rounding_up_mul o.y b.y hb.2.1,
           le_div_rounding_up_mul o.z b.z hb.2.2⟩
  · subst h
    simp [dim3_prod]

/-- Witness for the amended C2 theorem at the forced input block (256,1,1),
overall (1000,1,1): the hypotheses hold there and the resolved geometry satisfies
the amended property. -/
theorem C2_overall_le_grid_times_block_witness :
    (((1000 : Nat) ≤ 4 * 256 ∧ (1 : Nat) ≤ 1 * 1 ∧ (1 : Nat) ≤ 1 * 1) ∧
      (full_blocks ⟨⟨256, 1, 1⟩, ⟨4, 1, 1⟩, ⟨1000, 1, 1⟩, 0⟩ = true ↔
        dim3_prod (⟨4, 1, 1⟩ : dim3) ⟨256, 1, 1⟩ = (⟨1000, 1, 1⟩ : dim3))) :=
  C2_overall_le_grid_times_block
    ⟨some ⟨256, 1, 1⟩, none, some ⟨1000, 1, 1⟩, none⟩
    ⟨⟨256, 1, 1⟩, ⟨4, 1, 1⟩, ⟨1000, 1, 1⟩, 0⟩
    (by intro d hd
        injection hd with h2
        subst h2
        exact ⟨by decide, by decide, by decide⟩)
    rfl

/-- C6: the required-preprocessor-definition check passes exactly when every term the
descriptor requires belongs to the union of the terms defined through the generic
define options and the terms defined through dedicated named options; otherwise it
terminates fatally. -/
theorem C6_required_definitions_union_check (preprocessor_definitions : List String)
    (preprocessor_value_definitions : List (String × String))
    (required_terms : Finset String) :
    ensure_necessary_terms_were_defined preprocessor_definitions
        preprocessor_value_definitions required_terms = Except.ok () ↔
      required_terms ⊆
        get_defined_terms preprocessor_definitions ∪
          (preprocessor_value_definitions.map Prod.fst).toFinset := by
  by_cases hsub : required_terms ⊆
      get_defined_terms preprocessor_definitions ∪
        (preprocessor_value_definitions.map Prod.fst).toFinset
  · have hempty : ¬ (required_terms \
        (get_defined_terms preprocessor_definitions ∪
          (preprocessor_value_definitions.map Prod.fst).toFinset)).Nonempty := by
      rw [Finset.sdiff_nonempty]
      exact fun hc => hc hsub
    simp [ensure_necessary_terms_were_defined, hempty, hsub]
  · have hne : (required_terms \
        (get_defined_terms preprocessor_definitions ∪
          (preprocessor_value_definitions.map Prod.fst).toFinset)).Nonempty :=
      Finset.sdiff_nonempty.mpr hsub
    simp [ensure_necessary_terms_were_defined, hne, hsub]

theorem push_back_buffer_wf (a : marshalled_arguments_type) (ctx : marshal_context)
    (dir : parameter_direction_t) (name : String) (r : marshalled_arguments_type)
    (hw : args_wf ctx.ecosystem a)
    (h : push_back_buffer a ctx dir name = Except.ok r) :
    args_wf ctx.ecosystem r := by
  unfold push_back_buffer at h
  obtain ⟨hw1, hw2, hw3⟩ := hw
  split at h
  · exact Except.noConfusion h
  · split at h
    · next hc =>
      injection h with h2
      subst h2
      refine ⟨?_, ?_, ?_⟩
      · simp [hw1]
      · intro hop; rw [hc] at hop; exact absurd hop (by simp)
      · intro _; exact hw3 hc
    · next hc =>
      injection h with h2
      subst h2
      have hop : ctx.ecosystem = execution_ecosystem_t.opencl := by
        cases he : ctx.ecosystem
        · exact absurd he hc
        · rfl
      refine ⟨?_, ?_, ?_⟩
      · simp [hw1]
      · intro _; simp [hw2 hop]
      · intro hcu; rw [hop] at hcu; exact absurd hcu (by simp)

theorem push_back_scalar_wf (a : marshalled_arguments_type) (ctx : marshal_context)
    (name : String) (r : marshalled_arguments_type)
    (hw : args_wf ctx.ecosystem a)
    (h : push_back_scalar a ctx name = Except.ok r) :
    args_wf ctx.ecosystem r := by
  unfold push_back_scalar at h
  obtain ⟨hw1, hw2, hw3⟩ := hw
  split at h
  · exact Except.noConfusion h
  · split at h
    · next hc =>
      injection h with h2
      subst h2
      refine ⟨?_, ?_, ?_⟩
      · simp [hw1]
      · intro _; simp [hw2 hc]
      · intro hcu; rw [hc] at hcu; exact absurd hcu (by simp)
    · next hc =>
      injection h with h2
      subst h2
      have hcu : ctx.ecosystem = execution_ecosystem_t.cuda := by
        cases he : ctx.ecosystem
        · rfl
        · exact absurd he hc
      refine ⟨?_, ?_, ?_⟩
      · simp [hw1]
      · intro hop; rw [hcu] at hop; exact absurd hop (by simp)
      · intro _; exact hw3 hcu

theorem marshal_inner_wf (params : List single_parameter_details)
    (ctx : marshal_context) :
    ∀ a r : marshalled_arguments_type, args_wf ctx.ecosystem a →
      marshal_kernel_arguments_inner params ctx a = Except.ok r →
      args_wf ctx.ecosystem r := by
  induction params with
  | nil =>
    intro a r hw h
    unfold marshal_kernel_arguments_inner at h
    simp [List.foldlM, Pure.pure, Except.pure] at h
    subst h
    exact hw
  | cons p rest ih =>
    intro a r hw h
    unfold marshal_kernel_arguments_inner at h
    rw [List.foldlM_cons] at h
    cases hs : (match p.kind with
      | kind_t.buffer => push_back_buffer a ctx p.direction p.name
      | kind_t.scalar => push_back_scalar a ctx p.name) with
    | error e =>
      rw [hs] at h
      simp [Bind.bind, Except.bind] at h
    | ok a1 =>
      rw [hs] at h
      simp only [Bind.bind, Except.bind] at h
      have hw1 : args_wf ctx.ecosystem a1 := by
        cases hk : p.kind
        · rw [hk] at hs
          exact push_back_buffer_wf a ctx p.direction p.name a1 hw hs
        · rw [hk] at hs
          exact push_back_scalar_wf a ctx p.name a1 hw hs
      exact ih a1 r hw1 h

/-- C4: the marshaled argument list ends with exactly one terminating null entry iff
the active backend is CUDA (and the size list stays unused there); under OpenCL no
sentinel is appended and the byte-size list is parallel to the pointer list, one size
per appended argument. -/
theorem C4_sentinel_iff_cuda (params : List single_parameter_details)
    (ctx : marshal_context) (res : marshalled_arguments_type)
    (h : marshal_kernel_arguments params ctx = Except.ok res) :
    (ctx.ecosystem = execution_ecosystem_t.cuda →
      ∃ front, res.pointers = front ++ [none] ∧ (none : Option Nat) ∉ front ∧
        res.sizes = []) ∧
    (ctx.ecosystem = execution_ecosystem_t.opencl →
      (none : Option Nat) ∉ res.pointers ∧
        res.sizes.length = res.pointers.length) := by
  unfold marshal_kernel_arguments at h
  split at h
  · exact Except.noConfusion h
  · next a heq =>
    have hw : args_wf ctx.ecosystem a :=
      marshal_inner_wf params ctx ⟨[], []⟩ a
        ⟨by simp, by simp, by simp⟩ heq
    obtain ⟨hw1, hw2, hw3⟩ := hw
    split at h
    · next hc =>
      injection h with h2
      subst h2
      refine ⟨fun _ => ⟨a.pointers, rfl, hw1, hw3 hc⟩, fun hop => ?_⟩
      rw [hc] at hop
      exact absurd hop (by simp)
    · next hc =>
      injection h with h2
      subst h2
      have hop : ctx.ecosystem = execution_ecosystem_t.opencl := by
        cases he : ctx.ecosystem
        · exact absurd he hc
        · rfl
      exact ⟨fun hcu => absurd hcu hc, fun _ => ⟨hw1, hw2 hop⟩⟩

/-- Witness for the C4 theorem: a CUDA context with one input buffer and one scalar
marshals to two argument pointers followed by exactly one null sentinel, with an
empty size list. -/
theorem C4_sentinel_iff_cuda_witness :
    ((execution_ecosystem_t.cuda = execution_ecosystem_t.cuda →
      ∃ front, ([some 100, some 7, none] : List (Option Nat)) = front ++ [none] ∧
        (none : Option Nat) ∉ front ∧ ([] : List Nat) = []) ∧
    (execution_ecosystem_t.cuda = execution_ecosystem_t.opencl →
      (none : Option Nat) ∉ ([some 100, some 7, none] : List (Option Nat)) ∧
        ([] : List Nat).length =
          ([some 100, some 7, none] : List (Option Nat)).length)) :=
  C4_sentinel_iff_cuda
    [⟨"a", kind_t.buffer, parameter_direction_t.input⟩,
     ⟨"n", kind_t.scalar, parameter_direction_t.input⟩]
    ⟨execution_ecosystem_t.cuda,
      fun n => if n = "a" then some 100 else none,
      fun _ => none,
      fun n => if n = "n" then some (7, 4) else none⟩
    ⟨[some 100, some 7, none], []⟩
    rfl

/-- C5: for every marshaled buffer parameter, the appended device buffer is looked up
by logical name in the outputs collection when the direction is out or inout, and in
the inputs collection when the direction is in. -/
theorem C5_buffer_collection_by_direction (argument_ptrs : marshalled_arguments_type)
    (ctx : marshal_context) (name : String) (dir : parameter_direction_t)
    (addr_in addr_out : Nat)
    (hin : ctx.dev_inputs name = some addr_in)
    (hout : ctx.dev_outputs name = some addr_out) :
    ∃ r, push_back_buffer argument_ptrs ctx dir name = Except.ok r ∧
      r.pointers = argument_ptrs.pointers ++
        [some (if dir = parameter_direction_t.input then addr_in else addr_out)] := by
  have hmap : (if dir = parameter_direction_t.input then ctx.dev_inputs
      else ctx.dev_outputs) name =
      some (if dir = parameter_direction_t.input then addr_in else addr_out) := by
    by_cases hdir : dir = parameter_direction_t.input
    · simp [hdir, hin]
    · simp [hdir, hout]
  unfold push_back_buffer
  rw [hmap]
  by_cases hc : ctx.ecosystem = execution_ecosystem_t.cuda <;> simp [hc]

/-- Witness for the C5 theorem: with distinct pristine and working device buffers
registered under the same logical name, marshaling an inout buffer parameter appends
the working copy from the outputs collection. -/
theorem C5_buffer_collection_by_direction_witness :
    ∃ r, push_back_buffer ⟨[], []⟩
        ⟨execution_ecosystem_t.cuda,
          (fun n => if n = "v" then some 1 else none),
          (fun n => if n = "v" then some 2 else none),
          fun _ => none⟩
        parameter_direction_t.inout "v" = Except.ok r ∧
      r.pointers = ([] : List (Option Nat)) ++
        [some (if parameter_direction_t.inout = parameter_direction_t.input
          then 1 else 2)] :=
  C5_buffer_collection_by_direction ⟨[], []⟩
    ⟨execution_ecosystem_t.cuda,
      (fun n => if n = "v" then some 1 else none),
      (fun n => if n = "v" then some 2 else none),
      fun _ => none⟩
    "v" parameter_direction_t.inout 1 2 rfl rfl

theorem zero_fold_spec (names : List String) (bufs : device_buffers)
    (h : ∀ n ∈ names, (bufs.outputs n).isSome = true) :
    ∃ bufs2, names.foldlM zero_one_output_buffer bufs = some bufs2 ∧
      bufs2.inputs = bufs.inputs ∧
      ∀ n, (bufs2.outputs n).isSome = (bufs.outputs n).isSome := by
  induction names generalizing bufs with
  | nil => exact ⟨bufs, rfl, rfl, fun n => rfl⟩
  | cons n0 rest ih =>
    have h0 : (bufs.outputs n0).isSome = true := h n0 (List.mem_cons_self n0 rest)
    obtain ⟨v, hv⟩ := Option.isSome_iff_exists.mp h0
    have hstep : zero_one_output_buffer bufs n0 =
        some { bufs with outputs := fun n =>
          if n = n0 then some (List.replicate v.length 0) else bufs.outputs n } := by
      unfold zero_one_output_buffer
      rw [hv]
    obtain ⟨bufs1, hb1⟩ : ∃ bufs1 : device_buffers,
        bufs1 = { bufs with outputs := fun n =>
          if n = n0 then some (List.replicate v.length 0) else bufs.outputs n } :=
      ⟨_, rfl⟩
    rw [← hb1] at hstep
    have hiff : ∀ n, (bufs1.outputs n).isSome = (bufs.outputs n).isSome := by
      intro n
      by_cases hn : n = n0
      · subst hn; simp [hb1, hv]
      · simp [hb1, hn]
    have hrest : ∀ n ∈ rest, (bufs1.outputs n).isSome = true := by
      intro n hn
      rw [hiff n]
      exact h n (List.mem_cons_of_mem n0 hn)
    obtain ⟨bufs2, hfold, hinp, hiff2⟩ := ih bufs1 hrest
    refine ⟨bufs2, ?_, ?_, ?_⟩
    · rw [List.foldlM_cons, hstep]
      simpa using hfold
    · rw [hinp, hb1]
    · intro n
      rw [hiff2 n, hiff n]

theorem reset_fold_spec (names : List String) (bufs : device_buffers)
    (h : ∀ n ∈ names,
      (bufs.inputs n).isSome = true ∧ (bufs.outputs n).isSome = true) :
    ∃ bufs2, names.foldlM reset_one_inout_buffer bufs = some bufs2 ∧
      bufs2.inputs = bufs.inputs ∧
      (∀ n ∈ names, bufs2.outputs n = bufs.inputs n) ∧
      (∀ n, n ∉ names → bufs2.outputs n = bufs.outputs n) := by
  induction names generalizing bufs with
  | nil =>
    exact ⟨bufs, rfl, rfl, fun n hn => absurd hn (List.not_mem_nil n),
      fun n _ => rfl⟩
  | cons n0 rest ih =>
    obtain ⟨hi0, ho0⟩ := h n0 (List.mem_cons_self n0 rest)
    obtain ⟨vin, hvin⟩ := Option.isSome_iff_exists.mp hi0
    obtain ⟨vout, hvout⟩ := Option.isSome_iff_exists.mp ho0
    have hstep : reset_one_inout_buffer bufs n0 =
        some { bufs with outputs := fun n =>
          if n = n0 then some vin else bufs.outputs n } := by
      unfold reset_one_inout_buffer
      rw [hvin, hvout]
    obtain ⟨bufs1, hb1⟩ : ∃ bufs1 : device_buffers,
        bufs1 = { bufs with outputs := fun n =>
          if n = n0 then some vin else bufs.outputs n } :=
      ⟨_, rfl⟩
    rw [← hb1] at hstep
    have hrest : ∀ n ∈ rest,
        (bufs1.inputs n).isSome = true ∧ (bufs1.outputs n).isSome = true := by
      intro n hn
      refine ⟨by rw [hb1]; exact (h n (List.mem_cons_of_mem n0 hn)).1, ?_⟩
      by_cases hn0 : n = n0
      · subst hn0; simp [hb1]
      · simp [hb1, hn0]
        exact (h n (List.mem_cons_of_mem n0 hn)).2
    obtain ⟨bufs2, hfold, hinp, hmem, hnot⟩ := ih bufs1 hrest
    refine ⟨bufs2, ?_, ?_, ?_, ?_⟩
    · rw [List.foldlM_cons, hstep]
      simpa using hfold
    · rw [hinp, hb1]
    · intro n hn
      rcases List.mem_cons.mp hn with hn0 | hnr
      · subst hn0
        by_cases hr : n ∈ rest
        · rw [hmem n hr, hb1]
        · rw [hnot n hr]
          simp [hb1, hvin]
      · rw [hmem n hnr, hb1]
    · intro n hn
      have hn0 : n ≠ n0 := fun he => hn (he ▸ List.mem_cons_self n0 rest)
      have hnr : n ∉ rest := fun hr => hn (List.mem_cons_of_mem n0 hr)
      rw [hnot n hnr]
      simp [hb1, hn0]

theorem zero_output_buffers_spec (names : List String) (bufs : device_buffers)
    (h : ∀ n ∈ names, (bufs.outputs n).isSome = true) :
    ∃ bufs2 evs, zero_output_buffers names bufs = some (bufs2, evs) ∧
      bufs2.inputs = bufs.inputs ∧
      ∀ n, (bufs2.outputs n).isSome = (bufs.outputs n).isSome := by
  unfold zero_output_buffers
  by_cases he : names.isEmpty
  · rw [if_pos he]
    exact ⟨bufs, [], rfl, rfl, fun n => rfl⟩
  · rw [if_neg he]
    obtain ⟨bufs2, hfold, hinp, hiff⟩ := zero_fold_spec names bufs h
    rw [hfold]
    exact ⟨bufs2, names.map Event.zero_fill, rfl, hinp, hiff⟩

theorem reset_working_copy_spec (names : List String) (bufs : device_buffers)
    (h : ∀ n ∈ names,
      (bufs.inputs n).isSome = true ∧ (bufs.outputs n).isSome = true) :
    ∃ bufs2 evs,
      reset_working_copy_of_inout_buffers names bufs = some (bufs2, evs) ∧
      bufs2.inputs = bufs.inputs ∧
      (∀ n ∈ names, bufs2.outputs n = bufs.inputs n) ∧
      (∀ n, n ∉ names → bufs2.outputs n = bufs.outputs n) ∧
      (names ≠ [] → evs = names.map Event.copy_d2d ++ [Event.device_sync]) := by
  unfold reset_working_copy_of_inout_buffers
  by_cases he : names.isEmpty
  · rw [if_pos he]
    have hnil : names = [] := List.isEmpty_iff.mp he
    exact ⟨bufs, [], rfl, rfl,
      fun n hn => absurd hn (by rw [hnil]; exact List.not_mem_nil n),
      fun n _ => rfl, fun hne => absurd hnil hne⟩
  · rw [if_neg he]
    obtain ⟨bufs2, hfold, hinp, hmem, hnot⟩ := reset_fold_spec names bufs h
    rw [hfold]
    exact ⟨bufs2, names.map Event.copy_d2d ++ [Event.device_sync], rfl, hinp,
      hmem, hnot, fun _ => rfl⟩

theorem prepare_single_run_spec (opts : run_options) (bufs : device_buffers)
    (hbuf : has_buffers opts bufs) :
    ∃ bufs2 evs, prepare_single_run opts bufs = some (bufs2, evs) ∧
      bufs2.inputs = bufs.inputs ∧
      (∀ n ∈ opts.inout_names, bufs2.outputs n = bufs.inputs n) ∧
      has_buffers opts bufs2 ∧
      (opts.inout_names ≠ [] →
        ∃ front, evs = front ++ [Event.device_sync]) := by
  obtain ⟨hio, hoo⟩ := hbuf
  have hz : ∃ bufs1 evs1,
      (if opts.zero_output_buffers then
        zero_output_buffers opts.output_only_names bufs
      else some (bufs, [])) = some (bufs1, evs1) ∧
      bufs1.inputs = bufs.inputs ∧
      ∀ n, (bufs1.outputs n).isSome = (bufs.outputs n).isSome := by
    by_cases hzo : opts.zero_output_buffers
    · rw [if_pos hzo]
      exact zero_output_buffers_spec opts.output_only_names bufs hoo
    · rw [if_neg hzo]
      exact ⟨bufs, [], rfl, rfl, fun n => rfl⟩
  obtain ⟨bufs1, evs1, hz1, hz2, hz3⟩ := hz
  have hio1 : ∀ n ∈ opts.inout_names,
      (bufs1.inputs n).isSome = true ∧ (bufs1.outputs n).isSome = true := by
    intro n hn
    constructor
    · rw [hz2]
      exact (hio n hn).1
    · rw [hz3 n]
      exact (hio n hn).2
  obtain ⟨bufs2, evs2, hr1, hr2, hr3, hr4, hr5⟩ :=
    reset_working_copy_spec opts.inout_names bufs1 hio1
  refine ⟨bufs2, evs1 ++ evs2, ?_, ?_, ?_, ?_, ?_⟩
  · unfold prepare_single_run
    simp only [hz1, hr1]
  · rw [hr2, hz2]
  · intro n hn
    rw [hr3 n hn, hz2]
  · constructor
    · intro n hn
      refine ⟨by rw [hr2, hz2]; exact (hio n hn).1, ?_⟩
      rw [hr3 n hn, hz2]
      exact (hio n hn).1
    · intro n hn
      by_cases hmem : n ∈ opts.inout_names
      · rw [hr3 n hmem, hz2]
        exact (hio n hmem).1
      · rw [hr4 n hmem, hz3 n]
        exact hoo n hn
  · intro hne
    rw [hr5 hne]
    exact ⟨evs1 ++ opts.inout_names.map Event.copy_d2d,
      (List.append_assoc evs1 (opts.inout_names.map Event.copy_d2d)
        [Event.device_sync]).symm⟩

theorem state_after_runs_spec (opts : run_options)
    (mutate : Nat → (String → Option (List Nat)) → String → Option (List Nat))
    (hmut : ∀ j f n, (f n).isSome = true → ((mutate j f) n).isSome = true)
    (bufs0 : device_buffers) (hbuf : has_buffers opts bufs0) (k : Nat) :
    ∃ b, state_after_runs opts mutate bufs0 k = some b ∧
      b.inputs = bufs0.inputs ∧ has_buffers opts b := by
  induction k with
  | zero => exact ⟨bufs0, rfl, rfl, hbuf⟩
  | succ k ih =>
    obtain ⟨b, hb, hbin, hbbuf⟩ := ih
    obtain ⟨b2, evs, hp, hp2, hp3, hp4, hp5⟩ := prepare_single_run_spec opts b hbbuf
    refine ⟨launch_kernel mutate k b2, ?_, ?_, ?_⟩
    · simp only [state_after_runs, hb, perform_single_run, hp]
    · show b2.inputs = bufs0.inputs
      rw [hp2, hbin]
    · obtain ⟨h1, h2⟩ := hp4
      constructor
      · intro n hn
        exact ⟨(h1 n hn).1, hmut k b2.outputs n (h1 n hn).2⟩
      · intro n hn
        exact hmut k b2.outputs n (h2 n hn)

/-- C1: for every run index k below the configured number of runs, when the
descriptor declares inout buffers, the working device copy of every inout buffer
immediately before the kernel launch of run k equals the pristine device copy as of
context creation, the pristine inputs collection itself is never mutated, and the
events of run k end with the device synchronization directly followed by the kernel
launch, so run k never observes mutations from run k-1. The mutation function ranges
over all possible kernel behaviours on the outputs collection; it is only required
not to deallocate buffers. -/
theorem C1_inout_reset_before_every_run (opts : run_options)
    (mutate : Nat → (String → Option (List Nat)) → String → Option (List Nat))
    (bufs0 : device_buffers) (k : Nat) (name : String)
    (hmut : ∀ j f n, (f n).isSome = true → ((mutate j f) n).isSome = true)
    (hbuf : has_buffers opts bufs0)
    (hk : k < opts.num_runs)
    (hne : opts.inout_names ≠ [])
    (hname : name ∈ opts.inout_names) :
    ∃ b front, state_before_launch opts mutate bufs0 k = some b ∧
      b.outputs name = bufs0.inputs name ∧
      b.inputs = bufs0.inputs ∧
      events_of_run opts mutate bufs0 k =
        some (front ++ [Event.device_sync, Event.kernel_launch k]) := by
  obtain ⟨bk, hbk, hkin, hkbuf⟩ := state_after_runs_spec opts mutate hmut bufs0 hbuf k
  obtain ⟨b2, evs, hp, hp2, hp3, hp4, hp5⟩ := prepare_single_run_spec opts bk hkbuf
  obtain ⟨front0, hf⟩ := hp5 hne
  refine ⟨b2, front0, ?_, ?_, ?_, ?_⟩
  · simp only [state_before_launch, hbk, hp]
  · rw [hp3 name hname, hkin]
  · rw [hp2, hkin]
  · simp only [events_of_run, hbk, perform_single_run, hp]
    rw [hf]
    simp

/-- Witness for the C1 theorem: a context with a single inout buffer holding [1, 2],
a kernel that increments every byte of every buffer it can reach through its argument
pointers, two configured runs, and run index 1. -/
theorem C1_inout_reset_before_every_run_witness :
    ∃ b front,
      state_before_launch
        ⟨false, [], ["buf"], 2⟩
        (fun _ f n => (f n).map (fun l => l.map (fun v => v + 1)))
        ⟨(fun n => if n = "buf" then some [1, 2] else none),
         (fun n => if n = "buf" then some [1, 2] else none)⟩ 1 = some b ∧
      b.outputs "buf" =
        (fun n => if n = "buf" then some [1, 2] else none : String → Option (List Nat))
          "buf" ∧
      b.inputs =
        (fun n => if n = "buf" then some [1, 2] else none : String → Option (List Nat)) ∧
      events_of_run
        ⟨false, [], ["buf"], 2⟩
        (fun _ f n => (f n).map (fun l => l.map (fun v => v + 1)))
        ⟨(fun n => if n = "buf" then some [1, 2] else none),
         (fun n => if n = "buf" then some [1, 2] else none)⟩ 1 =
        some (front ++ [Event.device_sync, Event.kernel_launch 1]) :=
  C1_inout_reset_before_every_run
    ⟨false, [], ["buf"], 2⟩
    (fun _ f n => (f n).map (fun l => l.map (fun v => v + 1)))
    ⟨(fun n => if n = "buf" then some [1, 2] else none),
     (fun n => if n = "buf" then some [1, 2] else none)⟩ 1 "buf"
    (by intro j f n h
        cases hf : f n
        · rw [hf] at h; exact Bool.noConfusion h
        · simp [hf])
    (by constructor
        · intro n hn
          simp only [List.mem_singleton] at hn
          subst hn
          constructor <;> simp
        · intro n hn
          exact absurd hn (List.not_mem_nil n))
    (by decide)
    (by decide)
    (by decide)

/-- C9 evidence: the final device-index range check of ensure_gpu_device_validity
compares the index against the CUDA device count even when OpenCL is the selected
backend. First conjunct: with OpenCL selected, one OpenCL device on platform 0 and
two CUDA devices, device index 1 passes validation although the selected backend has
no device 1. Second conjunct: with two OpenCL devices and one CUDA device, the valid
OpenCL device index 1 is rejected. Both contradict validation against the device
count queried from the selected backend. -/
theorem C9_device_check_uses_cuda_count :
    ensure_gpu_device_validity ⟨2, [1], fun _ => true⟩
      execution_ecosystem_t.opencl none 1 false = Except.ok () ∧
    ensure_gpu_device_validity ⟨1, [2], fun _ => true⟩
      execution_ecosystem_t.opencl none 1 false =
        Except.error "Please specify a valid device index" := by
  constructor <;> rfl

/-- C8: when the specified kernel key is not registered, the process exits with a
nonzero code and the trace is empty: no device initialization, no buffer read, and no
host or device buffer allocation takes place. -/
theorem C8_unknown_kernel_key_fatal_early (cfg : main_config)
    (h : cfg.kernel_key ∉ cfg.registered_keys) :
    (main_model cfg).fst ≠ 0 ∧
    ∀ e ∈ (main_model cfg).snd,
      e ≠ Event.device_init ∧
      (∀ n, e ≠ Event.buffer_read n) ∧
      (∀ n, e ≠ Event.host_buffer_alloc n) ∧
      (∀ n, e ≠ Event.device_buffer_alloc n) := by
  by_cases hp : cfg.initial_parse_ok = false
  · simp [main_model, hp]
  · simp [main_model, hp, h]

/-- Witness for the C8 theorem at a configuration requesting the unregistered key
foo while only vector_add is registered. -/
theorem C8_unknown_kernel_key_fatal_early_witness :
    (main_model ⟨true, ["vector_add"], "foo", true, true, true, false, false, true,
        true, true, false, 1, ["a"], ["b"], ["b"], []⟩).fst ≠ 0 ∧
    ∀ e ∈ (main_model ⟨true, ["vector_add"], "foo", true, true, true, false, false,
        true, true, true, false, 1, ["a"], ["b"], ["b"], []⟩).snd,
      e ≠ Event.device_init ∧
      (∀ n, e ≠ Event.buffer_read n) ∧
      (∀ n, e ≠ Event.host_buffer_alloc n) ∧
      (∀ n, e ≠ Event.device_buffer_alloc n) :=
  C8_unknown_kernel_key_fatal_early
    ⟨true, ["vector_add"], "foo", true, true, true, false, false, true,
      true, true, false, 1, ["a"], ["b"], ["b"], []⟩
    (by decide)

/-- C10: when compile-only mode is enabled and the stages up to compilation succeed,
the process exits with code 0, and the trace contains no buffer-file read, no host or
device buffer allocation, no argument marshaling and no kernel launch. -/
theorem C10_compile_only_frame (cfg : main_config)
    (hparse : cfg.initial_parse_ok = true)
    (hkey : cfg.kernel_key ∈ cfg.registered_keys)
    (hdev : cfg.device_valid = true)
    (hkparse : cfg.kernel_parse_ok = true)
    (hcomp : cfg.compile_succeeds = true)
    (honly : cfg.compile_only = true) :
    (main_model cfg).fst = 0 ∧
    ∀ e ∈ (main_model cfg).snd,
      (∀ n, e ≠ Event.buffer_read n) ∧
      (∀ n, e ≠ Event.host_buffer_alloc n) ∧
      (∀ n, e ≠ Event.device_buffer_alloc n) ∧
      e ≠ Event.marshal_arguments ∧
      (∀ j, e ≠ Event.kernel_launch j) := by
  have h1 : (main_model cfg).fst = 0 ∧ (main_model cfg).snd =
      [Event.device_init, Event.compile_kernel] ++
        (if cfg.write_ptx then [Event.write_ir] else []) := by
    by_cases hw : cfg.write_ptx <;>
      simp [main_model, hparse, hkey, hdev, hkparse, hcomp, honly, hw]
  refine ⟨h1.1, ?_⟩
  rw [h1.2]
  intro e he
  have he2 : e = Event.device_init ∨ e = Event.compile_kernel ∨
      e = Event.write_ir := by
    by_cases hw : cfg.write_ptx
    · rw [if_pos hw] at he
      simp at he
      tauto
    · rw [if_neg hw] at he
      simp at he
      tauto
  rcases he2 with rfl | rfl | rfl <;>
    exact ⟨fun n => by simp, fun n => by simp, fun n => by simp, by simp,
      fun j => by simp⟩

/-- Witness for the C10 theorem at a compile-only configuration with a registered
kernel key and the intermediate-representation output enabled. -/
theorem C10_compile_only_frame_witness :
    (main_model ⟨true, ["vector_add"], "vector_add", true, true, true, true, true,
        true, true, true, false, 3, ["a"], ["b"], ["b"], []⟩).fst = 0 ∧
    ∀ e ∈ (main_model ⟨true, ["vector_add"], "vector_add", true, true, true, true,
        true, true, true, true, false, 3, ["a"], ["b"], ["b"], []⟩).snd,
      (∀ n, e ≠ Event.buffer_read n) ∧
      (∀ n, e ≠ Event.host_buffer_alloc n) ∧
      (∀ n, e ≠ Event.device_buffer_alloc n) ∧
      e ≠ Event.marshal_arguments ∧
      (∀ j, e ≠ Event.kernel_launch j) :=
  C10_compile_only_frame
    ⟨true, ["vector_add"], "vector_add", true, true, true, true, true, true,
      true, true, false, 3, ["a"], ["b"], ["b"], []⟩
    rfl (by decide) rfl rfl rfl rfl
